import Mathlib

/-!
# Verification of the linear-mcp operation translation and dispatch layer

Shallow embedding of the issue handler (`IssueHandler` in the issues feature,
`src/unnamed/part_000`), the GraphQL client (`src/src/graphql/client.ts`) and
the mutation variable declarations (`src/unnamed/part_001`), together with
theorems settling the frozen claims about routing, normalization, filter
assembly, error translation and the composite project-with-issues operation.
-/

namespace LinearMcp

/-! ## JavaScript primitives

The handler calls `parseInt(String(v), 10)` on caller-supplied scalars.
`jsParseInt` models `parseInt(s, 10)`: skip leading whitespace, read an
optional sign, then a maximal run of decimal digits; `NaN` (here `none`)
when that run is empty. -/

def jsDigits (cs : List Char) : List Char :=
  cs.takeWhile Char.isDigit

def digitsToNat (cs : List Char) : Nat :=
  cs.foldl (fun acc c => acc * 10 + (c.toNat - ('0').toNat)) 0

def jsParseInt (s : String) : Option Int :=
  let cs := s.toList.dropWhile (fun c => c = ' ' ∨ c = '\t' ∨ c = '\n' ∨ c = '\r')
  match cs with
  | '-' :: rest =>
      let ds := jsDigits rest
      if ds.isEmpty then none else some (-(digitsToNat ds : Int))
  | '+' :: rest =>
      let ds := jsDigits rest
      if ds.isEmpty then none else some ((digitsToNat ds : Int))
  | rest =>
      let ds := jsDigits rest
      if ds.isEmpty then none else some ((digitsToNat ds : Int))

/-! ## Input normalization (`handleCreateIssue`, part_000 lines 34-80)

The raw `estimate` and `priority` arguments may arrive as any JS value; the
handler applies `parseInt(String(v), 10)`.  We embed the field as the result
of `String(v)` (an `Option String`, `none` when the field is `undefined`),
which is what `parseInt` actually consumes. -/

structure CreateIssueArgs where
  title : String
  description : String
  teamId : String
  estimate : Option String := none
  priority : Option String := none

structure ProcessedCreateIssueArgs where
  title : String
  description : String
  teamId : String
  estimate : Option Int := none
  priority : Option Int := none

/-- Embeds part_000 lines 42-50: `parseInt` the estimate; when the result is
`NaN` the field is deleted from the processed args. -/
def normalizeEstimate (estimate : Option String) : Option Int :=
  match estimate with
  | none => none
  | some s =>
    match jsParseInt s with
    | none => none
    | some n => some n

/-- Embeds part_000 lines 52-60: `parseInt` the priority; when the result is
`NaN` or lies outside `[0, 4]` it is replaced by the default `0`. -/
def normalizePriority (priority : Option String) : Option Int :=
  match priority with
  | none => none
  | some s =>
    match jsParseInt s with
    | none => some 0
    | some n => if n < 0 ∨ n > 4 then some 0 else some n

/-- The `processedArgs` computed by `handleCreateIssue` before invoking the
backend (part_000 lines 40-60): a copy of the args with `estimate` and
`priority` normalized, everything else unchanged. -/
def processCreateIssueArgs (args : CreateIssueArgs) : ProcessedCreateIssueArgs :=
  { title := args.title
    description := args.description
    teamId := args.teamId
    estimate := normalizeEstimate args.estimate
    priority := normalizePriority args.priority }

/-! ## Search filter assembly (`handleSearchIssues`, part_000 lines 158-200)

`args.priority` is declared `number` upstream, but the handler guards with
`typeof args.priority === 'number'` because the arguments arrive untyped at
runtime; we model the raw field as a JS value. -/

inductive JsVal where
  | num (n : Int)
  | str (s : String)
  | boolean (b : Bool)
  | nullV
  deriving DecidableEq, Repr

/-- One disjunct of the `filter.or` array built for a free-text query:
either `{ title: { containsIgnoreCase: s } }` or `{ number: { eq: v } }`
(where the operand of `eq` may be JS `null`, modelled as `none`). -/
inductive FilterClause where
  | titleContainsIgnoreCase (s : String)
  | numberEq (v : Option Int)
  deriving DecidableEq, Repr

/-- The assembled search filter object.  Each field models the presence or
absence of the corresponding key in the `filter` record; the stored value is
the comparator operand (`project` holds the `id.eq` string, `team`,
`assignee` and `state` hold the `in` lists, `priority` holds the `eq`
number). -/
structure IssueFilter where
  or : Option (List FilterClause) := none
  project : Option String := none
  team : Option (List String) := none
  assignee : Option (List String) := none
  state : Option (List String) := none
  priority : Option Int := none
  deriving DecidableEq, Repr

/-- Arguments of `handleSearchIssues`.  `filterProjectIdEq` models the result
of the optional chain `args.filter?.project?.id?.eq`. -/
structure SearchIssuesArgs where
  query : Option String := none
  filterProjectIdEq : Option String := none
  teamIds : Option (List String) := none
  assigneeIds : Option (List String) := none
  states : Option (List String) := none
  priority : Option JsVal := none
  first : Option Int := none
  after : Option String := none
  orderBy : Option String := none

/-- Embeds the regex test `query.match(/^[A-Z]+-(\d+)$/)` of
`extractIssueNumber` (part_000 line 206): a non-empty maximal run of
uppercase letters, a hyphen, then a non-empty all-digit tail; returns the
captured digit group. -/
def matchIdentifierPattern (s : String) : Option (List Char) :=
  let cs := s.toList
  let letters := cs.takeWhile (fun c => 'A' ≤ c ∧ c ≤ 'Z')
  if letters.isEmpty then none
  else
    match cs.drop letters.length with
    | '-' :: ds => if ds ≠ [] ∧ ds.all Char.isDigit then some ds else none
    | _ => none

/-- Embeds `extractIssueNumber` (part_000 lines 205-211): when the query
matches `^[A-Z]+-(\d+)$`, `parseInt` of the digit group; otherwise `null`. -/
def extractIssueNumber (query : String) : Option Int :=
  match matchIdentifierPattern query with
  | some ds => jsParseInt (String.mk ds)
  | none => none

/-- JS truthiness of a possibly-absent string: `undefined` and `""` are
falsy, every other string is truthy. -/
def truthyStr (s : Option String) : Bool :=
  match s with
  | none => false
  | some v => v ≠ ""

/-- Embeds the filter assembly of `handleSearchIssues` (part_000 lines
162-187).  Each key of the `filter` record is set exactly when the code's
guard fires: `if (args.query)` and `if (args.filter?.project?.id?.eq)` are
truthiness tests on strings, the three list guards are presence tests (an
array is always truthy in JS), and the priority guard is
`typeof args.priority === 'number'`. -/
def buildSearchFilter (args : SearchIssuesArgs) : IssueFilter :=
  { or :=
      match args.query with
      | some q =>
        if q ≠ "" then
          some [FilterClause.titleContainsIgnoreCase q,
                FilterClause.numberEq (extractIssueNumber q)]
        else none
      | none => none
    project :=
      match args.filterProjectIdEq with
      | some e => if e ≠ "" then some e else none
      | none => none
    team := args.teamIds
    assignee := args.assigneeIds
    state := args.states
    priority :=
      match args.priority with
      | some (JsVal.num n) => some n
      | _ => none }

/-! ## Bulk update routing (`handleBulkUpdateIssues`, part_000 lines 116-153)

The handler chooses between `client.updateIssue` (single) and
`client.updateIssues` (bulk) on `args.issueIds.length === 1`.  We embed the
backend as an oracle giving the `UpdateIssuesResponse` of each client call
and record which call was made. -/

structure UpdateIssueInput where
  title : Option String := none
  description : Option String := none
  assigneeId : Option String := none
  priority : Option Int := none
  projectId : Option String := none
  stateId : Option String := none
  deriving DecidableEq, Repr

structure IssueRef where
  id : String
  identifier : String
  title : String
  url : String
  deriving DecidableEq, Repr

/-- The `UpdateIssuesResponse` shape of issue.types.ts lines 97-106: both
result fields are optional; the single-update mutation populates
`issueUpdate`, the batch mutation populates `issueBatchUpdate`. -/
structure UpdateResultField where
  success : Bool
  issues : List IssueRef := []
  deriving DecidableEq, Repr

structure UpdateIssuesResponse where
  issueUpdate : Option UpdateResultField := none
  issueBatchUpdate : Option UpdateResultField := none
  deriving DecidableEq, Repr

structure BulkUpdateIssuesInput where
  issueIds : List String
  update : UpdateIssueInput

/-- Backend oracle for the two update entry points of the GraphQL client. -/
structure UpdateBackend where
  updateIssue : String → UpdateIssueInput → UpdateIssuesResponse
  updateIssues : List String → UpdateIssueInput → UpdateIssuesResponse

/-- Which client call `handleBulkUpdateIssues` performed. -/
inductive UpdateCall where
  | updateIssueCall (id : String) (input : UpdateIssueInput)
  | updateIssuesCall (ids : List String) (input : UpdateIssueInput)
  deriving DecidableEq, Repr

/-- `result.issueUpdate?.success` as a boolean: `undefined?.success` is
`undefined`, hence falsy. -/
def issueUpdateSuccess (r : UpdateIssuesResponse) : Bool :=
  match r.issueUpdate with
  | some u => u.success
  | none => false

/-- `result.issueBatchUpdate?.success` as a boolean. -/
def issueBatchUpdateSuccess (r : UpdateIssuesResponse) : Bool :=
  match r.issueBatchUpdate with
  | some u => u.success
  | none => false

/-- `result.issueBatchUpdate.issues.length` (read only after the success
check passes, so the field is present on that path). -/
def issueBatchUpdateCount (r : UpdateIssuesResponse) : Nat :=
  match r.issueBatchUpdate with
  | some u => u.issues.length
  | none => 0

/-- Embeds `handleBulkUpdateIssues` (part_000 lines 116-153) after its
validation prelude (both required fields are present by typing and
`issueIds` is an array, so `validateRequiredParams` and the
`Array.isArray` check pass).  Returns the client call performed together
with the handler outcome: `Except.error` models the thrown `Error`. -/
def handleBulkUpdateIssues (client : UpdateBackend) (args : BulkUpdateIssuesInput) :
    UpdateCall × Except String String :=
  if args.issueIds.length = 1 then
    let id := args.issueIds.headD ""
    let result := client.updateIssue id args.update
    if issueUpdateSuccess result then
      (UpdateCall.updateIssueCall id args.update, Except.ok "Successfully updated issue")
    else
      (UpdateCall.updateIssueCall id args.update, Except.error "Failed to update issue")
  else
    let result := client.updateIssues args.issueIds args.update
    if issueBatchUpdateSuccess result then
      (UpdateCall.updateIssuesCall args.issueIds args.update,
       Except.ok ("Successfully updated " ++ toString (issueBatchUpdateCount result) ++ " issues"))
    else
      (UpdateCall.updateIssuesCall args.issueIds args.update,
       Except.error "Failed to update issues")

/-- Whether a handler outcome is a success (no exception thrown). -/
def outcomeOk (e : Except String String) : Bool :=
  match e with
  | Except.ok _ => true
  | Except.error _ => false

/-! ## Transport error translation (`execute`, client.ts lines 52-69)

`execute` forwards the operation text and variables to
`linearClient.client.rawRequest`; when the transport rejects with an
`Error` of message `m`, it re-throws
`new Error("GraphQL operation failed: " + m)`. -/

/-- Embeds `LinearGraphQLClient.execute` (client.ts lines 52-69).
`rawRequest` is the transport oracle: `Except.ok` is a response carrying
`data`, `Except.error m` is a rejected promise whose `Error` carries
message `m`. -/
def execute {T V : Type} (rawRequest : String → V → Except String T)
    (document : String) (vars : V) : Except String T :=
  match rawRequest document vars with
  | Except.ok data => Except.ok data
  | Except.error m => Except.error ("GraphQL operation failed: " ++ m)

/-! ## Composite create-project-with-issues (client.ts lines 100-124) -/

structure ProjectInput where
  name : String
  teamIds : List String
  deriving DecidableEq, Repr

structure Project where
  id : String
  name : String
  url : String
  deriving DecidableEq, Repr

structure ProjectCreateField where
  success : Bool
  project : Project
  lastSyncId : Int := 0
  deriving DecidableEq, Repr

structure ProjectResponse where
  projectCreate : ProjectCreateField
  deriving DecidableEq, Repr

/-- The `CreateIssueInput` of issue.types.ts lines 7-15, as the client sees
it (estimate and priority already normalized to numbers upstream). -/
structure CreateIssueInput where
  title : String
  description : String
  teamId : String
  assigneeId : Option String := none
  priority : Option Int := none
  projectId : Option String := none
  estimate : Option Int := none
  deriving DecidableEq, Repr

structure IssueBatchCreateField where
  success : Bool
  issues : List IssueRef := []
  lastSyncId : Int := 0
  deriving DecidableEq, Repr

structure IssueBatchResponse where
  issueBatchCreate : IssueBatchCreateField
  deriving DecidableEq, Repr

/-- The object returned by `createProjectWithIssues` on full success. -/
structure ProjectWithIssuesResponse where
  projectCreate : ProjectCreateField
  issueBatchCreate : IssueBatchCreateField
  deriving DecidableEq, Repr

/-- Backend oracle for the two client calls the composite makes. -/
structure CreateBackend where
  createProject : ProjectInput → ProjectResponse
  createBatchIssues : List CreateIssueInput → IssueBatchResponse

/-- A backend call made by `createProjectWithIssues`, in order. -/
inductive CreateCall where
  | createProjectCall (input : ProjectInput)
  | createBatchIssuesCall (issues : List CreateIssueInput)
  deriving DecidableEq, Repr

/-- The `issuesWithProject` map of client.ts lines 109-112: every issue
payload gets `projectId` set to the newly created project's id. -/
def withProjectId (projectId : String) (issues : List CreateIssueInput) :
    List CreateIssueInput :=
  issues.map fun issue => { issue with projectId := some projectId }

/-- Embeds `createProjectWithIssues` (client.ts lines 100-124).  Returns the
ordered list of backend calls made together with the outcome
(`Except.error` models the thrown `Error`). -/
def createProjectWithIssues (client : CreateBackend) (projectInput : ProjectInput)
    (issues : List CreateIssueInput) :
    List CreateCall × Except String ProjectWithIssuesResponse :=
  let projectResult := client.createProject projectInput
  if !projectResult.projectCreate.success then
    ([CreateCall.createProjectCall projectInput], Except.error "Failed to create project")
  else
    let issuesWithProject := withProjectId projectResult.projectCreate.project.id issues
    let issuesResult := client.createBatchIssues issuesWithProject
    if !issuesResult.issueBatchCreate.success then
      ([CreateCall.createProjectCall projectInput,
        CreateCall.createBatchIssuesCall issuesWithProject],
       Except.error "Failed to create issues")
    else
      ([CreateCall.createProjectCall projectInput,
        CreateCall.createBatchIssuesCall issuesWithProject],
       Except.ok { projectCreate := projectResult.projectCreate,
                   issueBatchCreate := issuesResult.issueBatchCreate })

/-! ## Mutation variable bindings (client.ts vs part_001)

Each client method binds a record of named GraphQL variables which the
transport sends alongside the operation text.  The mutation documents in
part_001 declare the variable set each operation accepts. -/

/-- A value bound to a GraphQL variable by the client. -/
inductive GqlValue where
  | str (s : String)
  | strList (ls : List String)
  | updateInput (u : UpdateIssueInput)
  deriving DecidableEq, Repr

/-- The variables object passed by `LinearGraphQLClient.updateIssue`
(client.ts lines 127-133): `{ id, input }`. -/
def updateIssue_variables (id : String) (input : UpdateIssueInput) :
    List (String × GqlValue) :=
  [("id", GqlValue.str id), ("input", GqlValue.updateInput input)]

/-- The variables object passed by `LinearGraphQLClient.updateIssues`
(client.ts lines 136-143): `{ ids, input }`. -/
def updateIssues_variables (ids : List String) (input : UpdateIssueInput) :
    List (String × GqlValue) :=
  [("ids", GqlValue.strList ids), ("input", GqlValue.updateInput input)]

/-- Variable names declared by `UPDATE_ISSUE_MUTATION` (part_001 line 77):
`mutation UpdateIssue($id: String!, $input: IssueUpdateInput!)`. -/
def UPDATE_ISSUE_MUTATION_declaredVariables : List String := ["id", "input"]

/-- Variable names declared by `UPDATE_ISSUES_MUTATION` (part_001 line 94):
`mutation UpdateIssues($input: IssueBatchUpdateInput!)` — only `input`. -/
def UPDATE_ISSUES_MUTATION_declaredVariables : List String := ["input"]

/-! ## Concrete fixtures (mirroring the repository's unit-test data) -/

def demoUpdate : UpdateIssueInput := { stateId := some "state-2" }

def demoIssue1 : IssueRef :=
  { id := "issue-1", identifier := "TEST-1", title := "Updated Issue 1",
    url := "https://linear.app/test/issue/TEST-1" }

def demoIssue2 : IssueRef :=
  { id := "issue-2", identifier := "TEST-2", title := "Updated Issue 2",
    url := "https://linear.app/test/issue/TEST-2" }

def demoUpdateBackend : UpdateBackend :=
  { updateIssue := fun _ _ => { issueUpdate := some { success := true, issues := [demoIssue1] } }
    updateIssues := fun _ _ => { issueBatchUpdate := some { success := true, issues := [demoIssue1, demoIssue2] } } }

def demoProject : Project :=
  { id := "project-1", name := "New Project", url := "https://linear.app/test/project/1" }

def demoProjectInput : ProjectInput := { name := "New Project", teamIds := ["team-1"] }

def demoIssueInput : CreateIssueInput :=
  { title := "Project Issue 1", description := "Description 1", teamId := "team-1" }

def demoCreateBackendProjectFail : CreateBackend :=
  { createProject := fun _ => { projectCreate := { success := false, project := demoProject } }
    createBatchIssues := fun _ => { issueBatchCreate := { success := true } } }

def demoCreateBackendIssuesFail : CreateBackend :=
  { createProject := fun _ => { projectCreate := { success := true, project := demoProject } }
    createBatchIssues := fun _ => { issueBatchCreate := { success := false } } }

def demoRawRequestSearchFail : String → Unit → Except String Unit :=
  fun _ _ => Except.error "Search failed"

def demoCreateArgs : CreateIssueArgs :=
  { title := "New Issue", description := "Description", teamId := "team-1" }

/-! ## Claim theorems -/

/-- C1: for a non-empty identifier list, `handleBulkUpdateIssues` with
exactly one identifier invokes the single-entity `updateIssue` client call
(parameterized by that id) and reads success from the `issueUpdate` result
field; with two or more identifiers it invokes the bulk `updateIssues` call
and reads success from the `issueBatchUpdate` field — the field read is
fixed by the branch taken, never probed from the response. -/
theorem handleBulkUpdateIssues_routing (client : UpdateBackend) (args : BulkUpdateIssuesInput) :
    (∀ id, args.issueIds = [id] →
      (handleBulkUpdateIssues client args).1 = UpdateCall.updateIssueCall id args.update ∧
      outcomeOk (handleBulkUpdateIssues client args).2 =
        issueUpdateSuccess (client.updateIssue id args.update)) ∧
    (2 ≤ args.issueIds.length →
      (handleBulkUpdateIssues client args).1 =
        UpdateCall.updateIssuesCall args.issueIds args.update ∧
      outcomeOk (handleBulkUpdateIssues client args).2 =
        issueBatchUpdateSuccess (client.updateIssues args.issueIds args.update)) := by
  constructor
  · intro id hid
    cases h : issueUpdateSuccess (client.updateIssue id args.update) <;>
      simp [handleBulkUpdateIssues, hid, h, outcomeOk]
  · intro hlen
    have hne : args.issueIds.length ≠ 1 := by omega
    cases h : issueBatchUpdateSuccess (client.updateIssues args.issueIds args.update) <;>
      simp [handleBulkUpdateIssues, hne, h, outcomeOk]

/-- Witness for C1: evaluates the routing theorem at a one-element and a
two-element identifier list against a concrete backend. -/
theorem handleBulkUpdateIssues_routing_witness :
    (handleBulkUpdateIssues demoUpdateBackend { issueIds := ["issue-1"], update := demoUpdate }).1 =
      UpdateCall.updateIssueCall "issue-1" demoUpdate ∧
    (handleBulkUpdateIssues demoUpdateBackend
        { issueIds := ["issue-1", "issue-2"], update := demoUpdate }).1 =
      UpdateCall.updateIssuesCall ["issue-1", "issue-2"] demoUpdate := by
  constructor
  · exact ((handleBulkUpdateIssues_routing demoUpdateBackend
      { issueIds := ["issue-1"], update := demoUpdate }).1 "issue-1" rfl).1
  · exact ((handleBulkUpdateIssues_routing demoUpdateBackend
      { issueIds := ["issue-1", "issue-2"], update := demoUpdate }).2 (by decide)).1

/-- C9: an empty `issueIds` list passes validation (both required fields
present, `issueIds` an array) and takes the bulk branch: `updateIssues` is
invoked with the empty list and success is read from `issueBatchUpdate`. -/
theorem handleBulkUpdateIssues_emptyList (client : UpdateBackend) (u : UpdateIssueInput) :
    (handleBulkUpdateIssues client { issueIds := [], update := u }).1 =
      UpdateCall.updateIssuesCall [] u ∧
    outcomeOk (handleBulkUpdateIssues client { issueIds := [], update := u }).2 =
      issueBatchUpdateSuccess (client.updateIssues [] u) := by
  cases h : issueBatchUpdateSuccess (client.updateIssues [] u) <;>
    simp [handleBulkUpdateIssues, h, outcomeOk]

/-- C2: if the project-creation step fails, `createProjectWithIssues` makes
exactly one backend call and fails naming the project step; if it
succeeds, every issue payload gets `projectId` set to the new project's id
before the single batch-issues call, and a failure of that second step
yields exactly two backend calls and a failure naming the issues step,
with no rollback call for the project. -/
theorem createProjectWithIssues_steps (client : CreateBackend) (projectInput : ProjectInput)
    (issues : List CreateIssueInput) :
    ((client.createProject projectInput).projectCreate.success = false →
      createProjectWithIssues client projectInput issues =
        ([CreateCall.createProjectCall projectInput], Except.error "Failed to create project")) ∧
    ((client.createProject projectInput).projectCreate.success = true →
      (∀ issue ∈ withProjectId (client.createProject projectInput).projectCreate.project.id issues,
        issue.projectId = some (client.createProject projectInput).projectCreate.project.id) ∧
      ((client.createBatchIssues
          (withProjectId (client.createProject projectInput).projectCreate.project.id issues)
            ).issueBatchCreate.success = false →
        createProjectWithIssues client projectInput issues =
          ([CreateCall.createProjectCall projectInput,
            CreateCall.createBatchIssuesCall
              (withProjectId (client.createProject projectInput).projectCreate.project.id issues)],
           Except.error "Failed to create issues"))) := by
  constructor
  · intro hfail
    simp [createProjectWithIssues, hfail]
  · intro hok
    constructor
    · intro issue hmem
      simp only [withProjectId, List.mem_map] at hmem
      obtain ⟨a, _, ha⟩ := hmem
      subst ha
      rfl
    · intro hbatch
      simp [createProjectWithIssues, hok, hbatch]

/-- Witness for C2: the project-failing backend yields one call and the
project-step error; the issues-failing backend yields two calls and the
issues-step error. -/
theorem createProjectWithIssues_steps_witness :
    createProjectWithIssues demoCreateBackendProjectFail demoProjectInput [demoIssueInput] =
      ([CreateCall.createProjectCall demoProjectInput], Except.error "Failed to create project") ∧
    createProjectWithIssues demoCreateBackendIssuesFail demoProjectInput [demoIssueInput] =
      ([CreateCall.createProjectCall demoProjectInput,
        CreateCall.createBatchIssuesCall (withProjectId "project-1" [demoIssueInput])],
       Except.error "Failed to create issues") := by
  constructor
  · exact (createProjectWithIssues_steps demoCreateBackendProjectFail demoProjectInput
      [demoIssueInput]).1 rfl
  · exact ((createProjectWithIssues_steps demoCreateBackendIssuesFail demoProjectInput
      [demoIssueInput]).2 rfl).2 rfl

/-- C3 (code bug): `updateIssues` binds the variables `ids` and `input`,
but `UPDATE_ISSUES_MUTATION` declares only `$input: IssueBatchUpdateInput!`
— the bound set includes the undeclared variable `ids`, violating the
bind-exactly-the-declared-variables contract (and the unit test, which
expects a single `input` variable of shape `{ issues: [...] }`). -/
theorem updateIssues_binds_undeclared_variable (ids : List String) (input : UpdateIssueInput) :
    (updateIssues_variables ids input).map Prod.fst = ["ids", "input"] ∧
    UPDATE_ISSUES_MUTATION_declaredVariables = ["input"] ∧
    UPDATE_ISSUES_MUTATION_declaredVariables.contains "ids" = false := by
  refine ⟨rfl, rfl, by decide⟩

/-- C4 counterexample: on a transport failure with message `"Search failed"`
the re-raised message is `"GraphQL operation failed: Search failed"`, which
differs from `"operation failed: "` followed by the original message. -/
theorem execute_message_counterexample :
    execute demoRawRequestSearchFail "query SearchIssues" () =
      Except.error "GraphQL operation failed: Search failed" ∧
    ("GraphQL operation failed: Search failed" ==
      "operation failed: " ++ "Search failed") = false := by
  refine ⟨rfl, by decide⟩

/-- C4 (amended): when the transport fails with an error carrying message
`m`, `execute` re-raises a failure whose message is exactly
`"GraphQL operation failed: "` followed by `m`. -/
theorem execute_transport_failure_message {T V : Type}
    (rawRequest : String → V → Except String T) (document : String) (vars : V)
    (m : String) (h : rawRequest document vars = Except.error m) :
    execute rawRequest document vars =
      Except.error ("GraphQL operation failed: " ++ m) := by
  simp [execute, h]

/-- Witness for amended C4: the concrete failing transport is wrapped with
the fixed message text. -/
theorem execute_transport_failure_message_witness :
    execute demoRawRequestSearchFail "query SearchIssues" () =
      Except.error ("GraphQL operation failed: " ++ "Search failed") :=
  execute_transport_failure_message demoRawRequestSearchFail "query SearchIssues" ()
    "Search failed" rfl

/-- C5: a supplied priority is never dropped; an unparseable or
out-of-range value becomes `0`, an in-range parse is kept, and a supplied
`"0"` is retained as `0`. -/
theorem priority_normalization (args : CreateIssueArgs) (s : String)
    (hs : args.priority = some s) :
    (processCreateIssueArgs args).priority.isSome = true ∧
    (jsParseInt s = none → (processCreateIssueArgs args).priority = some 0) ∧
    (∀ n, jsParseInt s = some n → (n < 0 ∨ 4 < n) →
      (processCreateIssueArgs args).priority = some 0) ∧
    (∀ n, jsParseInt s = some n → 0 ≤ n → n ≤ 4 →
      (processCreateIssueArgs args).priority = some n) ∧
    (processCreateIssueArgs { args with priority := some "0" }).priority = some 0 := by
  refine ⟨?_, ?_, ?_, ?_, ?_⟩
  · cases h : jsParseInt s with
    | none => simp [processCreateIssueArgs, normalizePriority, hs, h]
    | some n =>
      simp only [processCreateIssueArgs, normalizePriority, hs, h]
      split <;> simp
  · intro h
    simp [processCreateIssueArgs, normalizePriority, hs, h]
  · intro n h hrange
    simp only [processCreateIssueArgs, normalizePriority, hs, h]
    rw [if_pos hrange]
  · intro n h h0 h4
    simp only [processCreateIssueArgs, normalizePriority, hs, h]
    rw [if_neg (by omega)]
  · rfl

/-- Witness for C5: a supplied priority of `"7"` parses but lies outside
`[0, 4]`, so the normalized payload carries priority `0`. -/
theorem priority_normalization_witness :
    (processCreateIssueArgs { demoCreateArgs with priority := some "7" }).priority = some 0 :=
  (priority_normalization { demoCreateArgs with priority := some "7" } "7" rfl).2.2.1
    7 (by decide) (by decide)

/-- C6: a parseable estimate is coerced to its integer parse; an
unparseable estimate is removed from the normalized payload (and, in
particular, `"abc"` is dropped while `"3"` becomes `3`). -/
theorem estimate_normalization (args : CreateIssueArgs) (s : String)
    (hs : args.estimate = some s) :
    (∀ n, jsParseInt s = some n → (processCreateIssueArgs args).estimate = some n) ∧
    (jsParseInt s = none → (processCreateIssueArgs args).estimate = none) ∧
    (processCreateIssueArgs { args with estimate := some "abc" }).estimate = none ∧
    (processCreateIssueArgs { args with estimate := some "3" }).estimate = some 3 := by
  refine ⟨?_, ?_, rfl, rfl⟩
  · intro n h
    simp [processCreateIssueArgs, normalizeEstimate, hs, h]
  · intro h
    simp [processCreateIssueArgs, normalizeEstimate, hs, h]

/-- Witness for C6: a supplied estimate of `"3"` is kept as the integer
`3` in the normalized payload. -/
theorem estimate_normalization_witness :
    (processCreateIssueArgs { demoCreateArgs with estimate := some "3" }).estimate = some 3 :=
  (estimate_normalization { demoCreateArgs with estimate := some "3" } "3" rfl).1 3 (by decide)

/-- C7 counterexample: the query `""` is supplied but the assembled filter
has no `or` entry at all, refuting the claim for that supplied query. -/
theorem emptyQuery_no_disjunction_counterexample :
    (buildSearchFilter { query := some "" }).or = none := rfl

/-- C7 (amended): for a supplied non-empty query `q`, the assembled filter's
`or` entry is exactly the two-comparator disjunction — a case-insensitive
title-contains on the raw `q` and a number-equality whose operand is the
extracted identifier digits (`"ENG-42"` gives `42`) or null when the
pattern does not match (`"login bug"` gives null). -/
theorem query_filter_disjunction (args : SearchIssuesArgs) (q : String)
    (hq : args.query = some q) (hne : q ≠ "") :
    (buildSearchFilter args).or =
      some [FilterClause.titleContainsIgnoreCase q,
            FilterClause.numberEq (extractIssueNumber q)] ∧
    extractIssueNumber "ENG-42" = some 42 ∧
    extractIssueNumber "login bug" = none := by
  refine ⟨?_, by decide, by decide⟩
  simp [buildSearchFilter, hq, hne]

/-- Witness for amended C7: the query `"ENG-42"` assembles the
title-contains and number-equality disjunction with operand `42`. -/
theorem query_filter_disjunction_witness :
    (buildSearchFilter { query := some "ENG-42" }).or =
      some [FilterClause.titleContainsIgnoreCase "ENG-42",
            FilterClause.numberEq (some 42)] := by
  have h := query_filter_disjunction { query := some "ENG-42" } "ENG-42" rfl (by decide)
  rw [h.1, h.2.1]

/-- C8: the assembled filter carries a key only for predicates actually
supplied, and the priority-equality entry appears exactly when the supplied
priority is of numeric type — a numeric `0` is still included, a
non-numeric value contributes nothing. -/
theorem searchFilter_keys (args : SearchIssuesArgs) :
    (∀ n, args.priority = some (JsVal.num n) → (buildSearchFilter args).priority = some n) ∧
    ((∀ n, args.priority ≠ some (JsVal.num n)) → (buildSearchFilter args).priority = none) ∧
    (buildSearchFilter { priority := some (JsVal.num 0) }).priority = some 0 ∧
    ((buildSearchFilter args).or.isSome = true → args.query.isSome = true) ∧
    ((buildSearchFilter args).project.isSome = true → args.filterProjectIdEq.isSome = true) ∧
    ((buildSearchFilter args).team.isSome = true → args.teamIds.isSome = true) ∧
    ((buildSearchFilter args).assignee.isSome = true → args.assigneeIds.isSome = true) ∧
    ((buildSearchFilter args).state.isSome = true → args.states.isSome = true) ∧
    ((buildSearchFilter args).priority.isSome = true → args.priority.isSome = true) := by
  refine ⟨?_, ?_, rfl, ?_, ?_, ?_, ?_, ?_, ?_⟩
  · intro n h
    simp [buildSearchFilter, h]
  · intro h
    cases hp : args.priority with
    | none => simp [buildSearchFilter, hp]
    | some v =>
      cases v with
      | num n => exact absurd hp (h n)
      | str sv => simp [buildSearchFilter, hp]
      | boolean b => simp [buildSearchFilter, hp]
      | nullV => simp [buildSearchFilter, hp]
  · intro h
    cases hq : args.query with
    | none => exact absurd h (by simp [buildSearchFilter, hq])
    | some q => simp [hq]
  · intro h
    cases hp : args.filterProjectIdEq with
    | none => exact absurd h (by simp [buildSearchFilter, hp])
    | some e => simp [hp]
  · intro h
    simpa [buildSearchFilter] using h
  · intro h
    simpa [buildSearchFilter] using h
  · intro h
    simpa [buildSearchFilter] using h
  · intro h
    cases hp : args.priority with
    | none => exact absurd h (by simp [buildSearchFilter, hp])
    | some v => simp [hp]

/-- Witness for C8: a supplied numeric priority `3` yields the equality
comparator for `3`. -/
theorem searchFilter_keys_witness :
    (buildSearchFilter { priority := some (JsVal.num 3) }).priority = some 3 :=
  (searchFilter_keys { priority := some (JsVal.num 3) }).1 3 rfl

/-- C10: an empty-string query is treated exactly as an absent query: no
`or` entry is produced, and the whole assembled filter coincides with the
one built from the same arguments without a query. -/
theorem emptyQuery_treated_as_absent (args : SearchIssuesArgs) :
    (buildSearchFilter { args with query := some "" }).or = none ∧
    buildSearchFilter { args with query := some "" } =
      buildSearchFilter { args with query := none } := by
  constructor
  · simp [buildSearchFilter]
  · simp [buildSearchFilter]

end LinearMcp
